import Mathlib

/-!
Verification of the resilient state-and-event publication subsystem of the
retropie-ha-integration repository (src/mqtt_client.py, src/status_reporter.py).

The Python source is shallowly embedded: the global `current_state` dict becomes
the `MachineState` structure, `publish_game_event` becomes a pure transition
function returning the new state plus a trace of side effects, the retry loop of
`publish_mqtt_message` becomes a fuelled recursion over an oracle of per-attempt
outcomes, and the debounce / supervisor / TTS logic become explicit functions of
their environment oracles.  Exceptions raised by the Python code are modelled
with `Except PyErr`.
-/

namespace RetroHA

/-- Python exceptions that the embedded code can raise. -/
inductive PyErr where
  | typeError
  | attributeError
  | calledProcessError
  | runtimeError
  deriving Repr, DecidableEq

/-! ## Data model: the `current_state` dict (mqtt_client.py:63-75) -/

/-- Per-system counters stored by `_scan_game_collection_thread`
(mqtt_client.py:1508-1512). -/
structure SystemCounts where
  games : Nat
  favorites : Nat
  kid_friendly : Nat
  deriving Repr, DecidableEq

/-- The `game_collection` sub-dict of `current_state` (mqtt_client.py:68-74,
refreshed wholesale at mqtt_client.py:1521-1527).  The `systems` map is kept as
an association list. -/
structure GameCollection where
  total_games : Nat
  favorites : Nat
  kid_friendly : Nat
  last_scan : Nat
  systems : List (String × SystemCounts)
  deriving Repr, DecidableEq

/-- The global `current_state` dict (mqtt_client.py:63-75).  `machine_status`
is kept as a raw string exactly as Python stores it ("idle", "playing",
"shutdown"). -/
structure MachineState where
  machine_status : String
  current_game : Option String
  game_start_time : Option Nat
  last_update : Nat
  game_collection : GameCollection
  deriving Repr, DecidableEq

/-- The initial value of `current_state` (mqtt_client.py:63-75); `last_update`
is `int(time.time())` at module load. -/
def initial_state (now : Nat) : MachineState :=
  { machine_status := "idle"
    current_game := none
    game_start_time := none
    last_update := now
    game_collection := { total_games := 0, favorites := 0, kid_friendly := 0,
                         last_scan := 0, systems := [] } }

/-! ## JSON values

`save_state` serialises `current_state` with `json.dump` and `load_state`
parses it back with `json.load`; the Python `json` module is an external
library that is the identity on the value level, so the embedding works with
JSON values directly.  Only the shapes actually produced by the state dict are
needed. -/

/-- JSON values as produced by serialising `current_state`. -/
inductive Json where
  | null
  | str (s : String)
  | num (n : Nat)
  | obj (fields : List (String × Json))

/-- Key lookup in a JSON object (Python dict indexing). -/
def jget : List (String × Json) → String → Option Json
  | [], _ => none
  | (k, v) :: rest, key => if k = key then some v else jget rest key

/-- Read a numeric field, keeping a default when absent. -/
def natField (fs : List (String × Json)) (k : String) (d : Nat) : Nat :=
  match jget fs k with
  | some (.num n) => n
  | _ => d

def countsToJson (c : SystemCounts) : Json :=
  .obj [("games", .num c.games), ("favorites", .num c.favorites),
        ("kid_friendly", .num c.kid_friendly)]

def countsFromJson : Json → SystemCounts
  | .obj fs =>
    { games := natField fs "games" 0
      favorites := natField fs "favorites" 0
      kid_friendly := natField fs "kid_friendly" 0 }
  | _ => { games := 0, favorites := 0, kid_friendly := 0 }

def collectionToJson (g : GameCollection) : Json :=
  .obj [("total_games", .num g.total_games), ("favorites", .num g.favorites),
        ("kid_friendly", .num g.kid_friendly), ("last_scan", .num g.last_scan),
        ("systems", .obj (g.systems.map (fun kv => (kv.1, countsToJson kv.2))))]

def collectionFromJson : Json → GameCollection
  | .obj fs =>
    { total_games := natField fs "total_games" 0
      favorites := natField fs "favorites" 0
      kid_friendly := natField fs "kid_friendly" 0
      last_scan := natField fs "last_scan" 0
      systems :=
        match jget fs "systems" with
        | some (.obj sys) => sys.map (fun kv => (kv.1, countsFromJson kv.2))
        | _ => [] }
  | _ => { total_games := 0, favorites := 0, kid_friendly := 0,
           last_scan := 0, systems := [] }

def optStrToJson : Option String → Json
  | none => .null
  | some s => .str s

def optNatToJson : Option Nat → Json
  | none => .null
  | some n => .num n

/-- `json.dump(current_state, f)` — the JSON document written by `save_state`
(mqtt_client.py:94-95). -/
def stateToJson (st : MachineState) : Json :=
  .obj [("machine_status", .str st.machine_status),
        ("current_game", optStrToJson st.current_game),
        ("game_start_time", optNatToJson st.game_start_time),
        ("last_update", .num st.last_update),
        ("game_collection", collectionToJson st.game_collection)]

/-- `load_state` (mqtt_client.py:99-107): `current_state.update(json.load(f))`.
`dict.update` replaces each top-level key that is present in the document and
keeps the in-memory default for keys that are absent; the nested
`game_collection` dict is replaced wholesale, not merged.  A field whose JSON
value has an unexpected shape keeps the base value (the untyped Python dict
would store the raw value; only well-typed documents, i.e. those produced by
`save_state`, are in the model). -/
def load_state (base : MachineState) : Json → MachineState
  | .obj fs =>
    { machine_status :=
        match jget fs "machine_status" with
        | some (.str s) => s
        | _ => base.machine_status
      current_game :=
        match jget fs "current_game" with
        | some .null => none
        | some (.str s) => some s
        | _ => base.current_game
      game_start_time :=
        match jget fs "game_start_time" with
        | some .null => none
        | some (.num n) => some n
        | _ => base.game_start_time
      last_update :=
        match jget fs "last_update" with
        | some (.num n) => n
        | _ => base.last_update
      game_collection :=
        match jget fs "game_collection" with
        | some j => collectionFromJson j
        | none => base.game_collection }
  | _ => base

/-! ## Durable writes: the file operations of `save_state` -/

/-- Primitive file-system operations a durable write can be built from. -/
inductive FileOp where
  | write (path : String) (data : Json)
  | fsync (path : String)
  | rename (src dst : String)

/-- The state file path (mqtt_client.py:59); the config-dir prefix is
environment-dependent and irrelevant here. -/
def STATE_FILE : String := "state.json"

/-- `save_state` (mqtt_client.py:91-97): `open(STATE_FILE, 'w')` followed by
`json.dump(current_state, f)` — a single direct whole-file overwrite.  No
temporary file, no explicit flush/fsync, no rename appears in the source. -/
def save_state (st : MachineState) : List FileOp :=
  [.write STATE_FILE (stateToJson st)]

/-- Modelled from the spec: the "single-file atomic rewrite (write temp,
flush, rename)" pattern that section 4.1 of the spec prescribes for durable
state writes.  This definition follows the spec's words and exists only to be
compared with `save_state`, which is taken from the source. -/
def spec_atomic_rewrite (tmp dst : String) (data : Json) : List FileOp :=
  [.write tmp data, .fsync tmp, .rename tmp dst]

/-! ## The state machine: `publish_game_event` (mqtt_client.py:440-614)

Each CLI invocation applies one event to the state loaded from disk.  The
function is embedded as a pure transition: it receives the current state, the
event with its argument list, the metadata-lookup result (an external
collaborator, spec section 1), the current time and the `--shutdown-mode`
flag, and returns the new state together with the trace of side effects (state
saves and MQTT publishes) and the list of field names of the outgoing event
payload.  A Python exception is an `Except.error`. -/

/-- An EmulationStation event as dispatched by `publish_game_event`.
`gameStart` carries the result of `get_game_metadata(...)['name']` as an
oracle (`metaName`); `get_game_metadata` itself catches all its exceptions and
returns a dict (mqtt_client.py:303-305). -/
inductive GEvent where
  | systemStart
  | gameStart (args : List String) (metaName : Option String)
  | gameEnd
  | systemSelect (args : List String)
  | gameSelect (args : List String)
  | quit (args : List String)
  | other (name : String)
  deriving Repr, DecidableEq

/-- The event name used in the `P/event/<name>` topic. -/
def eventName : GEvent → String
  | .systemStart => "system-start"
  | .gameStart _ _ => "game-start"
  | .gameEnd => "game-end"
  | .systemSelect _ => "system-select"
  | .gameSelect _ => "game-select"
  | .quit _ => "quit"
  | .other n => n

/-- A side effect emitted by `publish_game_event`: a durable state save
(`save_state()`) or an MQTT publish (topic, retain flag, shutdown-mode flag).
Payload values of the auxiliary publishes are not tracked. -/
inductive Eff where
  | save (st : MachineState)
  | publishMsg (topic : String) (retain : Bool) (shutdown : Bool)
  deriving Repr, DecidableEq

/-- `os.path.basename` restricted to slash-separated paths. -/
def basename (p : String) : String :=
  (p.splitOn "/").getLastD p

/-- Python truthiness of `current_state['game_start_time']`
(mqtt_client.py:532): `None` and `0` are falsy. -/
def truthyTime : Option Nat → Bool
  | some t => t != 0
  | none => false

/-- `publish_game_event(event_type, event_args)` (mqtt_client.py:440-614).

* `tp` — the configured topic prefix;
* `shutdownFlag` — `args.shutdown_mode` from the command line; the source
  enables reduced timeouts only for `quit` events (mqtt_client.py:444-448);
* the `system-select` and `game-select` branches of the source test
  `args and len(args) >= 2` / `len(args) >= 4` where `args` is the global
  argparse `Namespace`, not the `event_args` parameter
  (mqtt_client.py:547,553); `len()` of a `Namespace` raises `TypeError`, so
  those branches raise unconditionally;
* the `verify_retroarch_network_commands` background thread spawned on
  game-start (mqtt_client.py:480-481) is omitted: no claim refers to it. -/
def publish_game_event (tp : String) (st : MachineState) (e : GEvent) (now : Nat)
    (shutdownFlag : Bool) : Except PyErr (MachineState × List Eff × List String) :=
  let sm := match e with
    | .quit _ => shutdownFlag
    | _ => false
  -- base payload fields (mqtt_client.py:454-459)
  let basePayload := ["event", "timestamp", "device", "system_info"]
  -- the final `P/event/<name>` publish, never retained (mqtt_client.py:608-614)
  let finish := fun (st' : MachineState) (effs : List Eff) (payload : List String) =>
    Except.ok (st', effs ++ [Eff.publishMsg (tp ++ "/event/" ++ eventName e) false sm], payload)
  match e with
  | .systemStart =>
    -- mqtt_client.py:462-470
    let st' := { st with
      machine_status := "idle", current_game := none,
      game_start_time := none, last_update := now }
    finish st' [.save st', .publishMsg (tp ++ "/availability") true false] basePayload
  | .gameStart args metaName =>
    -- mqtt_client.py:472-525; guard `event_args and len(event_args) >= 3`
    if args.length ≥ 3 then
      let romPath := args.getD 2 ""
      let gameName := basename romPath
      let displayName := metaName.getD gameName   -- metadata.get('name', game_name)
      let st' := { st with
        machine_status := "playing", current_game := some displayName,
        game_start_time := some now, last_update := now }
      finish st' [.save st', .publishMsg (tp ++ "/machine_status") true false]
        (basePayload ++ ["system", "emulator", "rom_path", "rom_name", "game_name", "start_time"])
    else
      -- no elif matches: state untouched, base payload still published
      finish st [] basePayload
  | .gameEnd =>
    -- mqtt_client.py:527-545; duration fields only when the start time is truthy
    let durationFields :=
      if truthyTime st.game_start_time then
        ["game_name", "start_time", "duration_seconds", "end_time"]
      else []
    let st' := { st with
      machine_status := "idle", current_game := none,
      game_start_time := none, last_update := now }
    finish st' [.save st', .publishMsg (tp ++ "/machine_status") true false]
      (basePayload ++ durationFields)
  | .systemSelect _ => Except.error .typeError
  | .gameSelect _ => Except.error .typeError
  | .quit args =>
    -- mqtt_client.py:590-606: status becomes "shutdown"; current_game and
    -- game_start_time are NOT cleared
    let st' := { st with machine_status := "shutdown", last_update := now }
    let payload := basePayload ++ (if args.isEmpty then [] else ["quit_mode"])
    let effs := [Eff.save st', Eff.publishMsg (tp ++ "/availability") true sm] ++
      (if sm then [] else [Eff.publishMsg (tp ++ "/machine_status") true false])
    finish st' effs payload
  | .other _ => finish st [] basePayload

/-- A sequence of `publish_game_event` invocations (each CLI call applies one
event to the persisted state).  An invocation that raises leaves the state
unchanged: the exception escapes before any mutation in the raising branches,
the process dies, and the next invocation reloads the same durable state. -/
def runEvents (tp : String) : MachineState → List (GEvent × Nat) → MachineState
  | st, [] => st
  | st, (e, t) :: rest =>
    match publish_game_event tp st e t false with
    | .ok (st', _, _) => runEvents tp st' rest
    | .error _ => runEvents tp st rest

/-- The amended state-machine invariant: `playing` implies a current game, a
current game implies `playing` or `shutdown` (a `quit` while playing keeps the
game fields), and the start time is set exactly when a game is set. -/
def state_inv (s : MachineState) : Prop :=
  (s.machine_status = "playing" → s.current_game.isSome) ∧
  (s.current_game.isSome → s.machine_status = "playing" ∨ s.machine_status = "shutdown") ∧
  (s.game_start_time.isSome ↔ s.current_game.isSome)

/-! ## The reliable publisher: `publish_mqtt_message` (mqtt_client.py:307-438)

The per-attempt outcome (connection confirmed within the stage timeout and
publish confirmed within the stage timeout) is an oracle `outcome : Nat → Bool`
indexed by the 0-based attempt number; a connect timeout and a publish timeout
are handled by the same `except` arm, so one Bool per attempt is faithful.
The degraded-mode reachability probe result is the oracle `probeOk`. -/

/-- The result of one `publish_mqtt_message` call: the returned Bool, the
number of attempts made, the backoff sleeps between attempts, whether the raw
socket probe ran, and the stage-timeout profile selected for the call
(mqtt_client.py:353-365). -/
structure PubResult where
  success : Bool
  attempts : Nat
  waits : List Nat
  probed : Bool
  connect_timeout : Nat
  publish_wait : Nat
  deriving Repr, DecidableEq

/-- Stage timeouts by mode (mqtt_client.py:353-365). -/
def connect_timeout_of (shutdownMode : Bool) : Nat := if shutdownMode then 2 else 15

def publish_wait_of (shutdownMode : Bool) : Nat := if shutdownMode then 1 else 5

def max_wait_of (shutdownMode : Bool) : Nat := if shutdownMode then 1 else 60

def max_attempts_of (shutdownMode : Bool) (maxRetries : Nat) : Nat :=
  if shutdownMode then 1 else maxRetries

/-- The retry loop (mqtt_client.py:367-438).  `retries` is the Python
`retries` counter; the fuel equals `actualMax - retries`, so fuel 0 is the
loop condition `retries < actual_max_retries` failing (the `return False` at
mqtt_client.py:438).  On a failed attempt the counter is incremented; if it
reaches the bound the call returns False (mqtt_client.py:415-425), otherwise
it sleeps `min(2 ** retries, max_wait)` (mqtt_client.py:428) and retries.
Returns (result, attempts made, backoff waits). -/
def attempt_loop (outcome : Nat → Bool) (actualMax maxWait : Nat) :
    Nat → Nat → Bool × Nat × List Nat
  | retries, 0 => (false, retries, [])
  | retries, fuel + 1 =>
    if outcome retries then
      (true, retries + 1, [])
    else
      let r := retries + 1
      if r ≥ actualMax then
        (false, r, [])
      else
        let rest := attempt_loop outcome actualMax maxWait r fuel
        (rest.1, rest.2.1, min (2 ^ r) maxWait :: rest.2.2)

/-- `publish_mqtt_message(topic, message, retain, max_retries, shutdown_mode)`
(mqtt_client.py:307-438).  `hostConfigured` models `config.get('mqtt_host')`
being set (mqtt_client.py:317-319); in shutdown mode a raw socket probe with a
0.5 s timeout runs before any MQTT connection and a failure (or exception)
returns False immediately (mqtt_client.py:321-334). -/
def publish_mqtt_message (shutdownMode hostConfigured probeOk : Bool)
    (outcome : Nat → Bool) (maxRetries : Nat) : PubResult :=
  if !hostConfigured then
    { success := false, attempts := 0, waits := [], probed := false,
      connect_timeout := connect_timeout_of shutdownMode,
      publish_wait := publish_wait_of shutdownMode }
  else if shutdownMode && !probeOk then
    { success := false, attempts := 0, waits := [], probed := true,
      connect_timeout := connect_timeout_of shutdownMode,
      publish_wait := publish_wait_of shutdownMode }
  else
    let actualMax := max_attempts_of shutdownMode maxRetries
    let r := attempt_loop outcome actualMax (max_wait_of shutdownMode) 0 actualMax
    { success := r.1, attempts := r.2.1, waits := r.2.2, probed := shutdownMode,
      connect_timeout := connect_timeout_of shutdownMode,
      publish_wait := publish_wait_of shutdownMode }

/-! ## Inbound command handlers (mqtt_client.py:695-1201)

An inbound payload string is classified by what `json.loads` does with it:
`text s` is a string `s` on which `json.loads` raises `JSONDecodeError`;
`obj fields` is the canonical `json.dumps` rendering of a JSON object with
string values; `jsonOther s` is a string `s` that parses as a non-dict JSON
value.  The handlers only ever compare the whole payload string against
sentinel tokens and read single fields of parsed objects, so this
classification carries exactly the information they consume. -/

/-- A message published by a handler: the topic, the acknowledgment status
when the message is a command acknowledgment (every ack payload in the source
also carries `int(time.time())`), and the retain flag. -/
inductive AckStatus where
  | success
  | error
  deriving Repr, DecidableEq

structure OutMsg where
  topic : String
  ack : Option AckStatus
  retain : Bool
  deriving Repr, DecidableEq

/-- An inbound command payload, classified by its `json.loads` behaviour. -/
inductive CmdPayload where
  | text (s : String)
  | obj (fields : List (String × String))
  | jsonOther (s : String)
  deriving Repr, DecidableEq

def quoteJson (s : String) : String := "\"" ++ s ++ "\""

/-- Canonical `json.dumps` rendering of the fields of an object. -/
def renderFields : List (String × String) → String
  | [] => ""
  | [kv] => quoteJson kv.1 ++ ": " ++ quoteJson kv.2
  | kv :: rest => quoteJson kv.1 ++ ": " ++ quoteJson kv.2 ++ ", " ++ renderFields rest

/-- Canonical `json.dumps` rendering of an object payload. -/
def renderObj (fs : List (String × String)) : String :=
  "\x7b" ++ renderFields fs ++ "\x7d"

/-- `msg.payload.decode().strip()` — the payload as a string. -/
def payloadStr : CmdPayload → String
  | .text s => s
  | .obj fs => renderObj fs
  | .jsonOther s => s

/-- String-valued dict lookup (`command.get(field, '')` on a parsed object). -/
def slookup : List (String × String) → String → Option String
  | [], _ => none
  | (k, v) :: rest, key => if k = key then some v else slookup rest key

def ackMsg (topic : String) (st : AckStatus) : OutMsg :=
  { topic := topic, ack := some st, retain := false }

def stateMsg (topic : String) : OutMsg :=
  { topic := topic, ack := none, retain := true }

/-- `handle_tts_command(msg, topic_prefix)` (mqtt_client.py:755-839).
`onCmdTopic` is `msg.topic == f"{topic_prefix}/command/tts"` (the handler is
also routed from `tts_text/set`, mqtt_client.py:714-715).  `stored` is the
function-attribute text buffer `handle_tts_command.current_text` (empty string
when unset — Python truthiness).  Returns the published messages and the new
stored text. -/
def handle_tts_command (tp : String) (onCmdTopic : Bool) (p : CmdPayload)
    (stored : String) : List OutMsg × String :=
  let respT := tp ++ "/command/tts/response"
  if payloadStr p = "SPEAK" then
    -- button press: use the stored text (mqtt_client.py:761-786)
    if stored ≠ "" then ([ackMsg respT .success], stored)
    else ([ackMsg respT .error], stored)
  else
    match p with
    | .jsonOther _ =>
      -- json.loads succeeds with a non-dict; `command.get` raises
      -- AttributeError, caught by the outer handler (mqtt_client.py:830-839)
      ([ackMsg respT .error], stored)
    | .obj fs =>
      let t := (slookup fs "text").getD ""
      if t ≠ "" then
        (stateMsg (tp ++ "/tts_text/state") ::
          (if onCmdTopic && t ≠ "SPEAK" then [ackMsg respT .success] else []), t)
      else ([ackMsg respT .error], stored)
    | .text s =>
      -- JSONDecodeError: use the payload as direct text (mqtt_client.py:793-795)
      if s ≠ "" then
        (stateMsg (tp ++ "/tts_text/state") ::
          (if onCmdTopic && s ≠ "SPEAK" then [ackMsg respT .success] else []), s)
      else ([ackMsg respT .error], stored)

/-- `handle_retroarch_message_command(msg, topic_prefix)`
(mqtt_client.py:892-988); sentinel "DISPLAY", field "message", external
oracle `displayOk` = result of `display_retroarch_message`. -/
def handle_retroarch_message_command (tp : String) (onCmdTopic : Bool) (p : CmdPayload)
    (stored : String) (displayOk : Bool) : List OutMsg × String :=
  let respT := tp ++ "/command/retroarch/message/response"
  let res : AckStatus := if displayOk then .success else .error
  if payloadStr p = "DISPLAY" then
    if stored ≠ "" then ([ackMsg respT res], stored)
    else ([ackMsg respT .error], stored)
  else
    match p with
    | .jsonOther _ => ([ackMsg respT .error], stored)
    | .obj fs =>
      let t := (slookup fs "message").getD ""
      if t ≠ "" then
        (stateMsg (tp ++ "/retroarch_message_text/state") ::
          (if onCmdTopic && t ≠ "DISPLAY" then [ackMsg respT res] else []), t)
      else ([ackMsg respT .error], stored)
    | .text s =>
      if s ≠ "" then
        (stateMsg (tp ++ "/retroarch_message_text/state") ::
          (if onCmdTopic && s ≠ "DISPLAY" then [ackMsg respT res] else []), s)
      else ([ackMsg respT .error], stored)

/-- `handle_retroarch_command_message(msg, topic_prefix)`
(mqtt_client.py:990-1090); sentinel "EXECUTE", field "command", external
oracle `sendResult` = result of `send_retroarch_command` (ack is success iff
the result is not None, mqtt_client.py:1004,1054). -/
def handle_retroarch_command_message (tp : String) (onCmdTopic : Bool) (p : CmdPayload)
    (stored : String) (sendResult : Option String) : List OutMsg × String :=
  let respT := tp ++ "/command/retroarch/response"
  let res : AckStatus := if sendResult.isSome then .success else .error
  if payloadStr p = "EXECUTE" then
    if stored ≠ "" then ([ackMsg respT res], stored)
    else ([ackMsg respT .error], stored)
  else
    match p with
    | .jsonOther _ => ([ackMsg respT .error], stored)
    | .obj fs =>
      let t := (slookup fs "command").getD ""
      if t ≠ "" then
        (stateMsg (tp ++ "/retroarch_command_text/state") ::
          (if onCmdTopic && t ≠ "EXECUTE" then [ackMsg respT res] else []), t)
      else ([ackMsg respT .error], stored)
    | .text s =>
      if s ≠ "" then
        (stateMsg (tp ++ "/retroarch_command_text/state") ::
          (if onCmdTopic && s ≠ "EXECUTE" then [ackMsg respT res] else []), s)
      else ([ackMsg respT .error], stored)

/-- `handle_retroarch_status_command(msg, topic_prefix)`
(mqtt_client.py:841-890); oracle `statusOk` = truthiness of
`get_retroarch_status()` (that function catches its own exceptions and
returns None on failure). -/
def handle_retroarch_status_command (tp : String) (p : CmdPayload)
    (statusOk : Bool) : List OutMsg :=
  let respT := tp ++ "/command/retroarch/status/response"
  let s := payloadStr p
  if s = "GET_STATUS" || s = "" || s = "\x7b\x7d" then
    if statusOk then
      -- also publishes the retained status topic before the ack
      [stateMsg (tp ++ "/retroarch/status"), ackMsg respT .success]
    else [ackMsg respT .error]
  else [ackMsg respT .error]

/-- `handle_ui_mode_command(msg, topic_prefix)` (mqtt_client.py:1092-1152);
oracle `changeOk` = result of `change_es_ui_mode(mode)`.  A parsed dict
replaces the mode only when it has a "mode" key (mqtt_client.py:1099-1105);
any other payload keeps the raw string. -/
def handle_ui_mode_command (tp : String) (p : CmdPayload) (changeOk : Bool) : List OutMsg :=
  let respT := tp ++ "/command/ui_mode/response"
  let mode := match p with
    | .obj fs => match slookup fs "mode" with
      | some m => m
      | none => payloadStr p
    | _ => payloadStr p
  if mode = "Full" || mode = "Kid" || mode = "Kiosk" then
    [stateMsg (tp ++ "/ui_mode/state"),
     ackMsg respT (if changeOk then .success else .error)]
  else [ackMsg respT .error]

/-- `handle_scan_games_command(msg, topic_prefix)` (mqtt_client.py:1154-1201);
oracle `scanOk` = result of `scan_game_collection()`. -/
def handle_scan_games_command (tp : String) (p : CmdPayload) (scanOk : Bool) : List OutMsg :=
  let respT := tp ++ "/command/scan_games/response"
  let s := payloadStr p
  if s = "SCAN" || s = "" || s = "\x7b\x7d" then
    [ackMsg respT (if scanOk then .success else .error)]
  else [ackMsg respT .error]

/-- The six `P/command/*` topics whose handlers `on_message` dispatches to
(mqtt_client.py:712-747). -/
inductive Command where
  | tts
  | raStatus
  | raMessage
  | raCommand
  | uiMode
  | scanGames
  deriving Repr, DecidableEq

/-- The `.../response` acknowledgment topic of a command. -/
def respTopic (tp : String) : Command → String
  | .tts => tp ++ "/command/tts/response"
  | .raStatus => tp ++ "/command/retroarch/status/response"
  | .raMessage => tp ++ "/command/retroarch/message/response"
  | .raCommand => tp ++ "/command/retroarch/response"
  | .uiMode => tp ++ "/command/ui_mode/response"
  | .scanGames => tp ++ "/command/scan_games/response"

/-- The mutable environment the handlers read: the three function-attribute
text buffers and the results of the side-effecting collaborators. -/
structure HandlerEnv where
  ttsStored : String
  raMsgStored : String
  raCmdStored : String
  statusOk : Bool
  displayOk : Bool
  sendResult : Option String
  changeOk : Bool
  scanOk : Bool
  deriving Repr, DecidableEq

/-- `on_message` dispatch for a message on a `P/command/*` topic
(mqtt_client.py:712-747): the matching handler runs with the message topic
equal to the command topic. -/
def runCommand (tp : String) (c : Command) (p : CmdPayload) (env : HandlerEnv) : List OutMsg :=
  match c with
  | .tts => (handle_tts_command tp true p env.ttsStored).1
  | .raStatus => handle_retroarch_status_command tp p env.statusOk
  | .raMessage => (handle_retroarch_message_command tp true p env.raMsgStored env.displayOk).1
  | .raCommand => (handle_retroarch_command_message tp true p env.raCmdStored env.sendResult).1
  | .uiMode => handle_ui_mode_command tp p env.changeOk
  | .scanGames => handle_scan_games_command tp p env.scanOk

/-- Number of messages published on the command's `.../response` topic. -/
def ackCount (tp : String) (c : Command) (msgs : List OutMsg) : Nat :=
  (msgs.filter (fun m => m.topic = respTopic tp c)).length

/-- The sentinel token and JSON field of the three text-buffer commands. -/
def sentinel_field : Command → Option (String × String)
  | .tts => some ("SPEAK", "text")
  | .raMessage => some ("DISPLAY", "message")
  | .raCommand => some ("EXECUTE", "command")
  | _ => none

/-- The acknowledgment hole: a JSON-object payload whose extracted field value
equals the handler's sentinel token takes the text-input branch, stores the
text, and skips the acknowledgment (e.g. mqtt_client.py:806-817 for tts). -/
def json_sentinel_hole (c : Command) (p : CmdPayload) : Bool :=
  match sentinel_field c, p with
  | some (tok, fld), .obj fs => (slookup fs fld).getD "" = tok
  | _, _ => false

/-! ## Debounced rescan trigger (mqtt_client.py:1294-1336)

Events are timestamps in seconds; `pending` is the scheduled fire time of the
live `threading.Timer`, `fired` the times at which a rescan ran. -/

def DEBOUNCE_SECONDS : Nat := 5

structure DebounceState where
  pending : Option Nat
  fired : List Nat
  deriving Repr, DecidableEq

/-- A pending timer whose deadline has passed fires (invoking `_trigger_scan`,
mqtt_client.py:1333-1336) before the next event is handled. -/
def fire_elapsed (s : DebounceState) (now : Nat) : DebounceState :=
  match s.pending with
  | some ft => if ft ≤ now then { pending := none, fired := s.fired ++ [ft] } else s
  | none => s

/-- `GamelistChangeHandler._handle_gamelist_change` (mqtt_client.py:1317-1331):
cancel any still-pending timer (cancelling an elapsed timer is a no-op) and
start a new one for `DEBOUNCE_SECONDS`. -/
def handle_gamelist_change (s : DebounceState) (now : Nat) : DebounceState :=
  let s' := fire_elapsed s now
  { pending := some (now + DEBOUNCE_SECONDS), fired := s'.fired }

def run_gamelist_events : DebounceState → List Nat → DebounceState
  | s, [] => s
  | s, t :: rest => run_gamelist_events (handle_gamelist_change s t) rest

/-- All rescan invocation times produced by a finite event sequence, letting
the last pending timer (if any) fire at its deadline. -/
def scan_times (evs : List Nat) : List Nat :=
  let s := run_gamelist_events { pending := none, fired := [] } evs
  s.fired ++ (match s.pending with | some ft => [ft] | none => [])

/-- A burst: times are nondecreasing and every inter-event gap is shorter than
the quiet period. -/
def tight_burst : List Nat → Bool
  | [] => true
  | [_] => true
  | a :: b :: rest => decide (a ≤ b) && decide (b < a + DEBOUNCE_SECONDS) && tight_burst (b :: rest)

/-- The time of the last event of `a :: l`. -/
def last_event (a : Nat) : List Nat → Nat
  | [] => a
  | b :: r => last_event b r

/-! ## Supervisor signal handling (status_reporter.py:60-77) -/

/-- Actions the supervisor process can take. -/
inductive SupAction where
  | runQuitShutdownMode (timeoutSec : Nat)
  | terminateChild
  | killChild
  | removePid
  | exitProc (code : Nat)
  deriving Repr, DecidableEq

/-- Outcome of the bounded `subprocess.run(..., timeout=3)` in the handler. -/
inductive SubprocOutcome where
  | completed
  | timedOut
  | raised
  deriving Repr, DecidableEq

/-- `signal_handler(sig, frame)` (status_reporter.py:60-77): one degraded-mode
quit publish via `python3 mqtt_client.py --event quit --shutdown-mode` bounded
by `timeout=3`, then `remove_pid()` and `sys.exit(0)`.  The `except` arms for
`TimeoutExpired` and `Exception` only log, so every outcome reaches the same
cleanup; the `sys.exit(0)` raises `SystemExit`, which no `except` clause of
`main` catches, so the terminate/kill cleanup block (status_reporter.py:192-211)
is skipped and the listener child is never signalled. -/
def signal_handler (o : SubprocOutcome) : List SupAction :=
  match o with
  | _ => [.runQuitShutdownMode 3, .removePid, .exitProc 0]

/-! ## `execute_tts` (mqtt_client.py:1203-1282) -/

/-- The audio playback section (mqtt_client.py:1210-1270): the per-user (or
direct) `aplay` attempt, then on failure the fallback method list in order;
when every method fails the section raises (mqtt_client.py:1270). -/
def playback_section (primaryOk : Bool) (methodResults : List Bool) : Except PyErr Unit :=
  if primaryOk then .ok ()
  else if methodResults.any (fun b => b) then .ok ()
  else .error .runtimeError

/-- The body of `execute_tts` up to the outer `except`: speech synthesis via
`pico2wave` with `check=True` (raises on failure, mqtt_client.py:1208), then
playback, then `return True` (mqtt_client.py:1278). -/
def execute_tts_run (synthOk primaryOk : Bool) (methodResults : List Bool) :
    Except PyErr Bool :=
  if !synthOk then .error .calledProcessError
  else
    match playback_section primaryOk methodResults with
    | .error e => .error e
    | .ok _ => .ok true

/-- `execute_tts(text)` (mqtt_client.py:1203-1282): the outer exception
handler returns True as well (mqtt_client.py:1279-1282). -/
def execute_tts (synthOk primaryOk : Bool) (methodResults : List Bool) : Bool :=
  match execute_tts_run synthOk primaryOk methodResults with
  | .ok b => b
  | .error _ => true

/-! ## Theorems -/

/-! ### Helper lemmas -/

/-- Appending distinct suffixes to a common prefix yields distinct strings. -/
theorem append_right_ne (p : String) {a b : String} (h : a ≠ b) : p ++ a ≠ p ++ b := by
  intro he
  apply h
  apply String.ext
  have hd := congrArg String.data he
  simp only [String.data_append] at hd
  exact List.append_cancel_left hd

/-! ### C5: `publish_game_event` raises on select events (code bug) -/

/-- C5: the claim says the transition function never fails, but the
`system-select` branch evaluates `len(args)` on the global argparse
`Namespace` (mqtt_client.py:547), raising `TypeError` for any argument list —
the state is left unchanged but no payload is produced and the exception is
fatal to the invoking process. -/
theorem c5_select_raises :
    publish_game_event "rp" (initial_state 0) (.systemSelect ["nes", "input"]) 7 false =
      .error .typeError := rfl

/-! ### C10: `execute_tts` always returns True -/

/-- C10: `execute_tts` returns True on every execution path — synthesis
failure, playback failure of every method, and full success all yield True
because the outer exception handler returns True (mqtt_client.py:1279-1282). -/
theorem c10_execute_tts_always_true (synthOk primaryOk : Bool) (methodResults : List Bool) :
    execute_tts synthOk primaryOk methodResults = true := by
  unfold execute_tts execute_tts_run playback_section
  cases synthOk <;> cases primaryOk <;>
    cases h : methodResults.any (fun b => b) <;> simp [h]

/-! ### C3: normal-mode retry policy -/

/-- C3: when every attempt fails, normal mode (shutdown_mode=False) makes
exactly 5 attempts, returns False, and sleeps `min(2 ** attempt, 60)` between
consecutive attempts — 2, 4, 8, 16 seconds after attempts 1-4. -/
theorem c3_normal_all_fail (outcome : Nat → Bool) (h : ∀ n, outcome n = false) :
    publish_mqtt_message false true true outcome 5 =
      { success := false, attempts := 5, waits := [2, 4, 8, 16], probed := false,
        connect_timeout := 15, publish_wait := 5 } := by
  have ho : outcome = fun _ => false := funext h
  subst ho
  decide

/-- Witness for C3 at the concrete always-failing oracle. -/
theorem c3_normal_all_fail_witness :
    publish_mqtt_message false true true (fun _ => false) 5 =
      { success := false, attempts := 5, waits := [2, 4, 8, 16], probed := false,
        connect_timeout := 15, publish_wait := 5 } :=
  c3_normal_all_fail (fun _ => false) (fun _ => rfl)

/-! ### C4: degraded-mode profile and reachability probe -/

/-- C4: in shutdown mode the call always runs the raw socket probe, uses the
2 s connect timeout and 1 s publish wait, makes at most one attempt (exactly
one when the probe succeeds, zero when it fails), and succeeds only when the
probe and the single attempt both succeed. -/
theorem c4_degraded_profile (outcome : Nat → Bool) (probe : Bool) :
    (publish_mqtt_message true true probe outcome 5).probed = true ∧
    (publish_mqtt_message true true probe outcome 5).connect_timeout = 2 ∧
    (publish_mqtt_message true true probe outcome 5).publish_wait = 1 ∧
    (publish_mqtt_message true true probe outcome 5).attempts = (if probe then 1 else 0) ∧
    (publish_mqtt_message true true probe outcome 5).success = (probe && outcome 0) := by
  cases probe <;> cases h : outcome 0 <;>
    simp [publish_mqtt_message, attempt_loop, h, connect_timeout_of, publish_wait_of,
      max_wait_of, max_attempts_of]

/-! ### C7: supervisor signal handling -/

/-- C7 counterexample: the signal handler never signals the listener child —
`sys.exit(0)` raises `SystemExit` past the monitoring loop, skipping the
terminate/kill cleanup (status_reporter.py:192-211), so the claimed
graceful-terminate-then-kill of the child does not happen. -/
theorem c7_counterexample : SupAction.terminateChild ∉ signal_handler .completed := by
  decide

/-- C7 amended: on SIGTERM/SIGINT the supervisor performs exactly one
degraded-mode quit publish bounded to 3 seconds, removes the PID marker and
exits 0, for every outcome of the bounded publish (so also when the broker is
permanently unreachable) — but it does not terminate the listener child. -/
theorem c7_amended (o : SubprocOutcome) :
    signal_handler o = [.runQuitShutdownMode 3, .removePid, .exitProc 0] ∧
    SupAction.terminateChild ∉ signal_handler o ∧
    SupAction.killChild ∉ signal_handler o := by
  cases o <;> exact ⟨rfl, by decide, by decide⟩

/-! ### C1: the state-machine invariant -/

/-- C1 counterexample: starting from the initial idle state, a valid
`game-start` followed by `quit` leaves `current_game` set while
`machine_status` is "shutdown" (the quit branch, mqtt_client.py:590-594, does
not clear the game fields), so "current_game is non-null iff machine_status ==
'playing'" fails. -/
theorem c1_counterexample :
    ¬ (((runEvents "rp" (initial_state 0)
            [(.gameStart ["nes", "lr-fceumm", "/roms/nes/mario.zip"] (some "Super Mario"), 100),
             (.quit [], 200)]).current_game.isSome = true) ↔
        (runEvents "rp" (initial_state 0)
            [(.gameStart ["nes", "lr-fceumm", "/roms/nes/mario.zip"] (some "Super Mario"), 100),
             (.quit [], 200)]).machine_status = "playing") := by
  decide

/-- One step of `runEvents` preserves the (amended) invariant. -/
theorem state_inv_step (tp : String) (st : MachineState) (e : GEvent) (now : Nat)
    (hinv : state_inv st) :
    state_inv (match publish_game_event tp st e now false with
      | .ok (st', _, _) => st'
      | .error _ => st) := by
  obtain ⟨h1, h2, h3⟩ := hinv
  have h3' : st.game_start_time.isSome = st.current_game.isSome := by
    cases hgt : st.game_start_time.isSome <;> cases hcg : st.current_game.isSome <;> simp_all
  cases e with
  | systemStart => simp [publish_game_event, state_inv]
  | gameStart args metaName =>
    by_cases hlen : args.length ≥ 3
    · simp [publish_game_event, hlen, state_inv]
    · simp [publish_game_event, hlen, state_inv, h3']
      exact ⟨h1, h2⟩
  | gameEnd => simp [publish_game_event, state_inv]
  | systemSelect args =>
    simp [publish_game_event, state_inv, h3']
    exact ⟨h1, h2⟩
  | gameSelect args =>
    simp [publish_game_event, state_inv, h3']
    exact ⟨h1, h2⟩
  | quit args =>
    simp [publish_game_event, state_inv, h3']
  | other n =>
    simp [publish_game_event, state_inv, h3']
    exact ⟨h1, h2⟩

/-- The invariant holds after any event sequence from an invariant state. -/
theorem runEvents_inv (tp : String) (evs : List (GEvent × Nat)) (st : MachineState)
    (hinv : state_inv st) : state_inv (runEvents tp st evs) := by
  induction evs generalizing st with
  | nil => exact hinv
  | cons p rest ih =>
    obtain ⟨e, t⟩ := p
    have hstep := state_inv_step tp st e t hinv
    simp only [runEvents]
    revert hstep
    cases publish_game_event tp st e t false with
    | ok r => obtain ⟨st', effs, pl⟩ := r; exact fun h => ih st' h
    | error _ => exact fun h => ih st h

/-- C1 amended: for every sequence of `publish_game_event` transitions from
the initial idle state, `machine_status == 'playing'` implies a non-null
`current_game`; a non-null `current_game` implies status 'playing' or
'shutdown' (quit preserves the game fields); and `game_start_time` is non-null
iff `current_game` is non-null. -/
theorem c1_amended (tp : String) (start : Nat) (evs : List (GEvent × Nat)) :
    state_inv (runEvents tp (initial_state start) evs) :=
  runEvents_inv tp evs _ (by simp [state_inv, initial_state])

/-! ### C2: durable writes are not atomic rewrites -/

/-- C2 counterexample: `save_state` (mqtt_client.py:91-97) is a single direct
overwrite of the state file; it is not the write-temp/flush/rename sequence
the claim describes, for any choice of temp-file name and content. -/
theorem c2_counterexample :
    ¬ ∃ tmp data, save_state (initial_state 0) = spec_atomic_rewrite tmp STATE_FILE data := by
  rintro ⟨tmp, data, h⟩
  have hl := congrArg List.length h
  simp [save_state, spec_atomic_rewrite] at hl

/-- C2 amended: every state-mutating invocation of `publish_game_event`
(system-start, game-start with valid args, game-end, quit) emits a durable
write of the full new state — but that write is `save_state`'s direct
non-atomic overwrite, not an atomic temp/flush/rename rewrite. -/
theorem c2_amended (tp : String) (st : MachineState) (e : GEvent) (now : Nat) (sf : Bool)
    (st' : MachineState) (effs : List Eff) (pl : List String)
    (h : publish_game_event tp st e now sf = .ok (st', effs, pl)) (hne : st' ≠ st) :
    Eff.save st' ∈ effs := by
  cases e with
  | systemStart =>
    simp [publish_game_event] at h
    obtain ⟨h1, h2, h3⟩ := h
    simp [← h1, ← h2]
  | gameStart args metaName =>
    by_cases hlen : args.length ≥ 3
    · simp [publish_game_event, hlen] at h
      obtain ⟨h1, h2, h3⟩ := h
      simp [← h1, ← h2]
    · simp [publish_game_event, hlen] at h
      exact absurd h.1.symm hne
  | gameEnd =>
    simp [publish_game_event] at h
    obtain ⟨h1, h2, h3⟩ := h
    simp [← h1, ← h2]
  | systemSelect args => simp [publish_game_event] at h
  | gameSelect args => simp [publish_game_event] at h
  | quit args =>
    simp [publish_game_event] at h
    obtain ⟨h1, h2, h3⟩ := h
    simp [← h1, ← h2]
  | other n =>
    simp [publish_game_event] at h
    exact absurd h.1.symm hne

/-- Witness for C2 amended: a concrete `game-end` call whose durable write of
the full new state is in the emitted effect list. -/
theorem c2_amended_witness :
    Eff.save { machine_status := "idle", current_game := none, game_start_time := none,
               last_update := 5,
               game_collection := { total_games := 0, favorites := 0, kid_friendly := 0,
                                    last_scan := 0, systems := [] } } ∈
      [Eff.save { machine_status := "idle", current_game := none, game_start_time := none,
                  last_update := 5,
                  game_collection := { total_games := 0, favorites := 0, kid_friendly := 0,
                                       last_scan := 0, systems := [] } },
       Eff.publishMsg "rp/machine_status" true false,
       Eff.publishMsg "rp/event/game-end" false false] :=
  c2_amended "rp" (initial_state 0) .gameEnd 5 false _ _ _ rfl (by decide)

/-! ### C9: save/load round-trip -/

theorem counts_roundtrip (c : SystemCounts) : countsFromJson (countsToJson c) = c := by
  cases c
  rfl

theorem systems_roundtrip (l : List (String × SystemCounts)) :
    List.map ((fun kv => (kv.1, countsFromJson kv.2)) ∘ (fun kv => (kv.1, countsToJson kv.2))) l
      = l := by
  induction l with
  | nil => rfl
  | cons kv rest ih => simp [Function.comp, counts_roundtrip, ih]

/-- C9: `save_state` followed by `load_state` in a fresh process (whose
in-memory state is the initial default before the load) reproduces the saved
state exactly, for every state — in particular for 'playing' with a non-null
game and for 'shutdown'. -/
theorem c9_roundtrip (st : MachineState) (bootTime : Nat) :
    load_state (initial_state bootTime) (stateToJson st) = st := by
  obtain ⟨ms, cg, gst, lu, gc⟩ := st
  obtain ⟨tg, fv, kf, ls, sys⟩ := gc
  cases cg <;> cases gst <;>
    simp [load_state, stateToJson, collectionToJson, collectionFromJson,
      optStrToJson, optNatToJson, jget, natField, systems_roundtrip]

/-! ### C8: debounced rescans -/

/-- Processing a burst from a state holding a timer armed by the burst's
previous event neither fires the timer nor touches the fired list: the final
state has exactly one pending timer, armed 5 s after the last event. -/
theorem run_burst (evs : List Nat) (prev : Nat) (fired₀ : List Nat)
    (h : tight_burst (prev :: evs) = true) :
    run_gamelist_events { pending := some (prev + DEBOUNCE_SECONDS), fired := fired₀ } evs =
      { pending := some (last_event prev evs + DEBOUNCE_SECONDS), fired := fired₀ } := by
  induction evs generalizing prev with
  | nil => simp [run_gamelist_events, last_event]
  | cons b rest ih =>
    have hab : prev ≤ b ∧ b < prev + DEBOUNCE_SECONDS ∧ tight_burst (b :: rest) = true := by
      simpa [tight_burst, Bool.and_eq_true, decide_eq_true_eq, and_assoc] using h
    have hnf : ¬ (prev + DEBOUNCE_SECONDS ≤ b) := by omega
    simp only [run_gamelist_events, handle_gamelist_change, fire_elapsed, hnf, if_neg,
      last_event]
    exact ih b hab.2.2

/-- C8: a burst of gamelist-change events whose inter-event gaps are all
shorter than the 5-second quiet period produces exactly one rescan,
scheduled 5 seconds after the last event of the burst (each event cancels the
pending timer and arms a fresh 5-second one, mqtt_client.py:1317-1331). -/
theorem c8_debounce (t : Nat) (rest : List Nat) (h : tight_burst (t :: rest) = true) :
    scan_times (t :: rest) = [last_event t rest + DEBOUNCE_SECONDS] := by
  have h0 : run_gamelist_events { pending := none, fired := [] } (t :: rest) =
      { pending := some (last_event t rest + DEBOUNCE_SECONDS), fired := [] } := by
    simp only [run_gamelist_events, handle_gamelist_change, fire_elapsed]
    exact run_burst rest t [] h
  simp [scan_times, h0]

/-- Witness for C8: ten events within one second yield exactly one rescan,
scheduled 5 s after the last event. -/
theorem c8_debounce_witness :
    tight_burst [0, 0, 0, 0, 0, 0, 0, 0, 0, 1] = true ∧
    scan_times [0, 0, 0, 0, 0, 0, 0, 0, 0, 1] = [6] :=
  ⟨by decide, by simpa using c8_debounce 0 [0, 0, 0, 0, 0, 0, 0, 0, 1] (by decide)⟩

/-! ### C6: command acknowledgments -/

theorem renderObj_head (fs : List (String × String)) :
    (renderObj fs).data.head? = some '{' := by
  have hbl : ("\x7b" : String).data = ['{'] := rfl
  simp [renderObj, String.data_append, hbl]

/-- The canonical rendering of an object payload never equals a string that
does not start with '\x7b'. -/
theorem renderObj_ne (fs : List (String × String)) (s : String)
    (h : s.data.head? ≠ some '{') : renderObj fs ≠ s := by
  intro he
  exact h (he ▸ renderObj_head fs)

/-- The canonical rendering of a non-empty object payload is not "\x7b\x7d". -/
theorem renderObj_cons_ne_braces (kv : String × String) (rest : List (String × String)) :
    renderObj (kv :: rest) ≠ "\x7b\x7d" := by
  intro he
  have h2 := congrArg (fun s => s.data.tail.head?) he
  have hbl : ("\x7b" : String).data = ['{'] := rfl
  have hbr : ("\x7d" : String).data = ['}'] := rfl
  have hbb : ("\x7b\x7d" : String).data = ['{', '}'] := rfl
  have hquo : ("\"" : String).data = ['"'] := rfl
  cases rest with
  | nil =>
    simp [renderObj, renderFields, quoteJson, String.data_append, hbl, hbr, hbb, hquo] at h2
  | cons kv2 rest2 =>
    simp [renderObj, renderFields, quoteJson, String.data_append, hbl, hbr, hbb, hquo] at h2

/-- C6 counterexample: a `P/command/tts` message with payload
`\x7b"text": "SPEAK"\x7d` takes the text-input branch (the payload string is
not the bare sentinel), stores the text and updates the text-input state
topic, but — because the extracted text equals "SPEAK" — publishes no
acknowledgment at all (mqtt_client.py:797-817), contradicting "exactly one
acknowledgment". -/
theorem c6_counterexample :
    ackCount "rp" .tts (runCommand "rp" .tts (.obj [("text", "SPEAK")])
      { ttsStored := "", raMsgStored := "", raCmdStored := "", statusOk := true,
        displayOk := true, sendResult := none, changeOk := true, scanOk := true }) = 0 := by
  decide

/-- C6 amended: every message on one of the six `P/command/*` topics yields
exactly one acknowledgment on its `.../response` topic, except that on the
three text-buffer commands (tts, retroarch/message, retroarch) a JSON-object
payload whose extracted field equals the handler's sentinel token ("SPEAK" /
"DISPLAY" / "EXECUTE") stores the text and yields no acknowledgment. -/
theorem c6_amended (tp : String) (c : Command) (p : CmdPayload) (env : HandlerEnv) :
    ackCount tp c (runCommand tp c p env) = (if json_sentinel_hole c p then 0 else 1) := by
  cases c
  case tts =>
    have hne : (tp ++ "/tts_text/state" : String) ≠ tp ++ "/command/tts/response" :=
      append_right_ne tp (by decide)
    cases p with
    | text s =>
      by_cases hs : s = "SPEAK"
      · subst hs
        by_cases hst : env.ttsStored = "" <;>
          simp [runCommand, handle_tts_command, payloadStr, json_sentinel_hole, sentinel_field,
            ackCount, respTopic, ackMsg, hst]
      · by_cases h0 : s = "" <;>
          simp [runCommand, handle_tts_command, payloadStr, json_sentinel_hole, sentinel_field,
            ackCount, respTopic, ackMsg, stateMsg, hs, h0, hne]
    | obj fs =>
      have hnsp : renderObj fs ≠ "SPEAK" := renderObj_ne fs _ (by decide)
      by_cases ht : (slookup fs "text").getD "" = "SPEAK"
      · simp [runCommand, handle_tts_command, payloadStr, json_sentinel_hole, sentinel_field,
          ackCount, respTopic, ackMsg, stateMsg, hnsp, ht, hne]
      · by_cases h0 : (slookup fs "text").getD "" = "" <;>
          simp [runCommand, handle_tts_command, payloadStr, json_sentinel_hole, sentinel_field,
            ackCount, respTopic, ackMsg, stateMsg, hnsp, ht, h0, hne]
    | jsonOther s =>
      by_cases hs : s = "SPEAK"
      · subst hs
        by_cases hst : env.ttsStored = "" <;>
          simp [runCommand, handle_tts_command, payloadStr, json_sentinel_hole, sentinel_field,
            ackCount, respTopic, ackMsg, hst]
      · simp [runCommand, handle_tts_command, payloadStr, json_sentinel_hole, sentinel_field,
          ackCount, respTopic, ackMsg, hs]
  case raMessage =>
    have hne : (tp ++ "/retroarch_message_text/state" : String) ≠
        tp ++ "/command/retroarch/message/response" :=
      append_right_ne tp (by decide)
    cases p with
    | text s =>
      by_cases hs : s = "DISPLAY"
      · subst hs
        by_cases hst : env.raMsgStored = "" <;>
          simp [runCommand, handle_retroarch_message_command, payloadStr, json_sentinel_hole,
            sentinel_field, ackCount, respTopic, ackMsg, hst]
      · by_cases h0 : s = "" <;>
          simp [runCommand, handle_retroarch_message_command, payloadStr, json_sentinel_hole,
            sentinel_field, ackCount, respTopic, ackMsg, stateMsg, hs, h0, hne]
    | obj fs =>
      have hnsp : renderObj fs ≠ "DISPLAY" := renderObj_ne fs _ (by decide)
      by_cases ht : (slookup fs "message").getD "" = "DISPLAY"
      · simp [runCommand, handle_retroarch_message_command, payloadStr, json_sentinel_hole,
          sentinel_field, ackCount, respTopic, ackMsg, stateMsg, hnsp, ht, hne]
      · by_cases h0 : (slookup fs "message").getD "" = "" <;>
          simp [runCommand, handle_retroarch_message_command, payloadStr, json_sentinel_hole,
            sentinel_field, ackCount, respTopic, ackMsg, stateMsg, hnsp, ht, h0, hne]
    | jsonOther s =>
      by_cases hs : s = "DISPLAY"
      · subst hs
        by_cases hst : env.raMsgStored = "" <;>
          simp [runCommand, handle_retroarch_message_command, payloadStr, json_sentinel_hole,
            sentinel_field, ackCount, respTopic, ackMsg, hst]
      · simp [runCommand, handle_retroarch_message_command, payloadStr, json_sentinel_hole,
          sentinel_field, ackCount, respTopic, ackMsg, hs]
  case raCommand =>
    have hne : (tp ++ "/retroarch_command_text/state" : String) ≠
        tp ++ "/command/retroarch/response" :=
      append_right_ne tp (by decide)
    cases p with
    | text s =>
      by_cases hs : s = "EXECUTE"
      · subst hs
        by_cases hst : env.raCmdStored = "" <;>
          simp [runCommand, handle_retroarch_command_message, payloadStr, json_sentinel_hole,
            sentinel_field, ackCount, respTopic, ackMsg, hst]
      · by_cases h0 : s = "" <;>
          simp [runCommand, handle_retroarch_command_message, payloadStr, json_sentinel_hole,
            sentinel_field, ackCount, respTopic, ackMsg, stateMsg, hs, h0, hne]
    | obj fs =>
      have hnsp : renderObj fs ≠ "EXECUTE" := renderObj_ne fs _ (by decide)
      by_cases ht : (slookup fs "command").getD "" = "EXECUTE"
      · simp [runCommand, handle_retroarch_command_message, payloadStr, json_sentinel_hole,
          sentinel_field, ackCount, respTopic, ackMsg, stateMsg, hnsp, ht, hne]
      · by_cases h0 : (slookup fs "command").getD "" = "" <;>
          simp [runCommand, handle_retroarch_command_message, payloadStr, json_sentinel_hole,
            sentinel_field, ackCount, respTopic, ackMsg, stateMsg, hnsp, ht, h0, hne]
    | jsonOther s =>
      by_cases hs : s = "EXECUTE"
      · subst hs
        by_cases hst : env.raCmdStored = "" <;>
          simp [runCommand, handle_retroarch_command_message, payloadStr, json_sentinel_hole,
            sentinel_field, ackCount, respTopic, ackMsg, hst]
      · simp [runCommand, handle_retroarch_command_message, payloadStr, json_sentinel_hole,
          sentinel_field, ackCount, respTopic, ackMsg, hs]
  case raStatus =>
    have hne : (tp ++ "/retroarch/status" : String) ≠
        tp ++ "/command/retroarch/status/response" :=
      append_right_ne tp (by decide)
    simp only [runCommand, handle_retroarch_status_command, json_sentinel_hole, sentinel_field]
    cases hso : env.statusOk <;>
    · cases p with
      | text s =>
        by_cases h1 : s = "GET_STATUS" <;> by_cases h2 : s = "" <;>
          by_cases h3 : s = "\x7b\x7d" <;>
          simp [payloadStr, ackCount, respTopic, ackMsg, stateMsg, h1, h2, h3, hne]
      | obj fs =>
        cases fs with
        | nil =>
          simp [payloadStr, renderObj, renderFields, ackCount, respTopic, ackMsg, stateMsg, hne]
        | cons kv rest =>
          have hn1 : renderObj (kv :: rest) ≠ "GET_STATUS" := renderObj_ne _ _ (by decide)
          have hn2 : renderObj (kv :: rest) ≠ "" := renderObj_ne _ _ (by decide)
          have hn3 : renderObj (kv :: rest) ≠ "\x7b\x7d" := renderObj_cons_ne_braces kv rest
          simp [payloadStr, ackCount, respTopic, ackMsg, hn1, hn2, hn3]
      | jsonOther s =>
        by_cases h1 : s = "GET_STATUS" <;> by_cases h2 : s = "" <;>
          by_cases h3 : s = "\x7b\x7d" <;>
          simp [payloadStr, ackCount, respTopic, ackMsg, stateMsg, h1, h2, h3, hne]
  case uiMode =>
    have hne : (tp ++ "/ui_mode/state" : String) ≠ tp ++ "/command/ui_mode/response" :=
      append_right_ne tp (by decide)
    simp only [runCommand, handle_ui_mode_command, json_sentinel_hole, sentinel_field]
    cases hco : env.changeOk <;>
    · cases p with
      | text s =>
        by_cases h1 : s = "Full" <;> by_cases h2 : s = "Kid" <;> by_cases h3 : s = "Kiosk" <;>
          simp [payloadStr, ackCount, respTopic, ackMsg, stateMsg, h1, h2, h3, hne]
      | obj fs =>
        cases hmode : slookup fs "mode" with
        | none =>
          have hn1 : renderObj fs ≠ "Full" := renderObj_ne _ _ (by decide)
          have hn2 : renderObj fs ≠ "Kid" := renderObj_ne _ _ (by decide)
          have hn3 : renderObj fs ≠ "Kiosk" := renderObj_ne _ _ (by decide)
          simp [payloadStr, ackCount, respTopic, ackMsg, hmode, hn1, hn2, hn3]
        | some m =>
          by_cases h1 : m = "Full" <;> by_cases h2 : m = "Kid" <;> by_cases h3 : m = "Kiosk" <;>
            simp [payloadStr, ackCount, respTopic, ackMsg, stateMsg, hmode, h1, h2, h3, hne]
      | jsonOther s =>
        by_cases h1 : s = "Full" <;> by_cases h2 : s = "Kid" <;> by_cases h3 : s = "Kiosk" <;>
          simp [payloadStr, ackCount, respTopic, ackMsg, stateMsg, h1, h2, h3, hne]
  case scanGames =>
    simp only [runCommand, handle_scan_games_command, json_sentinel_hole, sentinel_field]
    cases hso : env.scanOk <;>
    · cases p with
      | text s =>
        by_cases h1 : s = "SCAN" <;> by_cases h2 : s = "" <;> by_cases h3 : s = "\x7b\x7d" <;>
          simp [payloadStr, ackCount, respTopic, ackMsg, h1, h2, h3]
      | obj fs =>
        cases fs with
        | nil => simp [payloadStr, renderObj, renderFields, ackCount, respTopic, ackMsg]
        | cons kv rest =>
          have hn1 : renderObj (kv :: rest) ≠ "SCAN" := renderObj_ne _ _ (by decide)
          have hn2 : renderObj (kv :: rest) ≠ "" := renderObj_ne _ _ (by decide)
          have hn3 : renderObj (kv :: rest) ≠ "\x7b\x7d" := renderObj_cons_ne_braces kv rest
          simp [payloadStr, ackCount, respTopic, ackMsg, hn1, hn2, hn3]
      | jsonOther s =>
        by_cases h1 : s = "SCAN" <;> by_cases h2 : s = "" <;> by_cases h3 : s = "\x7b\x7d" <;>
          simp [payloadStr, ackCount, respTopic, ackMsg, h1, h2, h3]

end RetroHA
